import Mathlib

/-!
Verification development for the financial-metrics interpreter
(`metrics_interpreter.py`, `metrics_utils.py`).

The Python code is shallowly embedded: the metric registry `METRICS` and the
alias table `METRIC_ALIASES` are transcribed literally; `calc` and
`MetricsInterpreter.calculate_metric` become pure Lean functions over
association lists; Python `eval` (as restricted by `calc`'s
`safe_globals = \x7b"__builtins__": None\x7d` and
`safe_locals = \x7b**input_values, 'abs': abs, 'max': max, 'min': min\x7d`)
is modelled by a tokenizer, a recursive-descent parser for the Python
expression fragment that can appear here (numbers, string literals,
identifiers, `+ - * /`, parentheses, calls, attribute access, unary minus),
and an evaluator over `PyVal`.  Numeric values are modelled as exact
rationals (`ℚ`); Python raises `ZeroDivisionError` on a zero denominator
rather than producing an infinity, and the model mirrors that by returning
an error.  Exceptions are modelled with `Except`; Python dictionaries are
association lists (first match wins; dict overwrite is modelled by
prepending the newer binding).
-/

/-- Decidable equality for `Except`, needed to settle concrete results by
computation. -/
instance {ε α : Type} [DecidableEq ε] [DecidableEq α] : DecidableEq (Except ε α) := by
  intro a b
  cases a <;> cases b
  case ok.ok x y =>
    exact if h : x = y then isTrue (by rw [h]) else isFalse (by intro k; cases k; exact h rfl)
  case error.error x y =>
    exact if h : x = y then isTrue (by rw [h]) else isFalse (by intro k; cases k; exact h rfl)
  all_goals exact isFalse (by intro k; cases k)

/-- Extract the payload of a successful `Except` computation, `none` on error.
Used to state results without fixing the exact error message. -/
def okVal {ε α : Type} : Except ε α → Option α
  | .ok v => some v
  | .error _ => none

/-- Model of Python `str.replace(pat, rep)`: replace every non-overlapping
occurrence, scanning left to right.  The `Nat` argument is fuel bounding the
number of scanning steps; each step consumes at least one character, so
`s.length` is always enough fuel.  Python's behaviour for an empty pattern
(inserting `rep` everywhere) is never exercised here; the model leaves the
string unchanged in that case. -/
def replChars (pat rep : List Char) : Nat → List Char → List Char
  | _, [] => []
  | 0, s => s
  | fuel + 1, c :: cs =>
    if pat ≠ [] ∧ pat.isPrefixOf (c :: cs) then
      rep ++ replChars pat rep fuel (List.drop (pat.length - 1) cs)
    else
      c :: replChars pat rep fuel cs

/-- String-level wrapper for `replChars`; the model of Python `str.replace`. -/
def strReplace (s pat rep : String) : String :=
  String.mk (replChars pat.data rep.data s.data.length s.data)

/-- Substring occurrence test on character lists. -/
def occursL (pat : List Char) : List Char → Bool
  | [] => pat.isEmpty
  | c :: cs => pat.isPrefixOf (c :: cs) || occursL pat cs

/-- Substring occurrence test on strings: does `pat` occur in `s`? -/
def occursStr (pat s : String) : Bool :=
  occursL pat.data s.data

/-- Model of Python `", ".join(l)`. -/
def joinComma : List String → String
  | [] => ""
  | [s] => s
  | s :: rest => s ++ ", " ++ joinComma rest

/-- Model of Python `str(l)` for a list of strings, e.g. `[\x27cogs\x27]`. -/
def pyListRepr (l : List String) : String :=
  "[" ++ joinComma (l.map (fun s => "\x27" ++ s ++ "\x27")) ++ "]"

/-- Name sanitization from `calc`
(`inp.replace('.', '_').replace('&', 'and').replace('-', '_')`). -/
def sanitize (s : String) : String :=
  strReplace (strReplace (strReplace s "." "_") "&" "and") "-" "_"

/-- Runtime values of the evaluator.  `num` models Python numbers as exact
rationals, `str` models Python strings, `builtin` the three allowed builtin
functions, `obj` an opaque Python object (such as a class obtained through
attribute access), and `noneVal` Python `None` (the value bound to
`__builtins__` in `calc`'s globals). -/
inductive PyVal : Type where
  | num : ℚ → PyVal
  | str : String → PyVal
  | builtin : String → PyVal
  | obj : String → PyVal
  | noneVal : PyVal
deriving DecidableEq

/-- Runtime faults of Python expression evaluation, as raised by `eval`. -/
inductive PyErr : Type where
  | nameErr : String → PyErr
  | typeErr : PyErr
  | zeroDiv : PyErr
  | attrErr : String → PyErr
  | syntaxErr : PyErr
deriving DecidableEq

/-- Render a `PyErr` the way `str(e)` renders the corresponding Python
exception (up to the irrelevant detail text). -/
def errStr : PyErr → String
  | .nameErr s => "NameError: name \x27" ++ s ++ "\x27 is not defined"
  | .typeErr => "TypeError: unsupported operand type(s)"
  | .zeroDiv => "ZeroDivisionError: division by zero"
  | .attrErr s => "AttributeError: " ++ s
  | .syntaxErr => "SyntaxError: invalid syntax"

/-- Binary arithmetic operators of the formula language. -/
inductive BOp : Type where
  | add | sub | mul | div
deriving DecidableEq

mutual
/-- Abstract syntax of the Python expression fragment reachable from `eval`
on a formula string: literals, names, binary arithmetic, calls and attribute
access.  Statements and `import` do not exist at expression level, which is
why they do not appear here. -/
inductive Expr : Type where
  | num : ℚ → Expr
  | strLit : String → Expr
  | name : String → Expr
  | binop : BOp → Expr → Expr → Expr
  | call : Expr → ExprArgs → Expr
  | attr : Expr → String → Expr

/-- Argument lists of a call (a separate mutual inductive so that the
evaluator is structurally recursive). -/
inductive ExprArgs : Type where
  | nil : ExprArgs
  | cons : Expr → ExprArgs → ExprArgs
end

/-- Characters allowed inside a Python identifier (ASCII fragment). -/
def identChar (c : Char) : Bool :=
  c.isAlpha || c.isDigit || c = '_'

/-- Numeric value of a digit run. -/
def natOfDigits (l : List Char) : Nat :=
  l.foldl (fun a c => 10 * a + (c.toNat - 48)) 0

/-- The single-quote character, written via its code point so the source
contains no bare apostrophe. -/
def quoteChar : Char := Char.ofNat 39

/-- Tokens of the expression language. -/
inductive Tok : Type where
  | tnum : Nat → Tok
  | tid : String → Tok
  | tsym : Char → Tok
  | tstr : String → Tok
deriving DecidableEq

/-- Punctuation recognised by the tokenizer. -/
def symChars : List Char := ['+', '*', '/', '(', ')', ',', '.', '-']

/-- Tokenizer for formula strings.  Mirrors Python's lexer on this fragment:
an identifier-character run starting with a digit must be all digits
(otherwise Python reports an invalid decimal literal, e.g. `10K_Employees`),
single-quoted string literals are recognised, any other character is a
syntax error.  Fuel: each step consumes at least one character. -/
def tokChars : Nat → List Char → Option (List Tok)
  | _, [] => some []
  | 0, _ => none
  | fuel + 1, c :: cs =>
    if c = ' ' then tokChars fuel cs
    else if identChar c then
      let run := c :: cs.takeWhile identChar
      let rest := cs.dropWhile identChar
      if c.isDigit then
        if run.all Char.isDigit then (tokChars fuel rest).map (Tok.tnum (natOfDigits run) :: ·)
        else none
      else (tokChars fuel rest).map (Tok.tid (String.mk run) :: ·)
    else if symChars.contains c then (tokChars fuel cs).map (Tok.tsym c :: ·)
    else if c = quoteChar then
      let body := cs.takeWhile (fun d => !(d = quoteChar : Bool))
      match cs.dropWhile (fun d => !(d = quoteChar : Bool)) with
      | _ :: rest2 => (tokChars fuel rest2).map (Tok.tstr (String.mk body) :: ·)
      | [] => none
    else none

mutual
/-- Parse an additive expression (`term ((+|-) term)*`). -/
def parseE : Nat → List Tok → Option (Expr × List Tok)
  | 0, _ => none
  | fuel + 1, ts => do
    let (e, ts1) ← parseT fuel ts
    parseERest fuel e ts1

/-- Left-associated continuation of an additive expression. -/
def parseERest : Nat → Expr → List Tok → Option (Expr × List Tok)
  | 0, _, _ => none
  | fuel + 1, acc, Tok.tsym '+' :: ts => do
    let (r, ts1) ← parseT fuel ts
    parseERest fuel (Expr.binop BOp.add acc r) ts1
  | fuel + 1, acc, Tok.tsym '-' :: ts => do
    let (r, ts1) ← parseT fuel ts
    parseERest fuel (Expr.binop BOp.sub acc r) ts1
  | _ + 1, acc, ts => some (acc, ts)

/-- Parse a multiplicative term (`factor ((*|/) factor)*`). -/
def parseT : Nat → List Tok → Option (Expr × List Tok)
  | 0, _ => none
  | fuel + 1, ts => do
    let (e, ts1) ← parseF fuel ts
    parseTRest fuel e ts1

/-- Left-associated continuation of a multiplicative term. -/
def parseTRest : Nat → Expr → List Tok → Option (Expr × List Tok)
  | 0, _, _ => none
  | fuel + 1, acc, Tok.tsym '*' :: ts => do
    let (r, ts1) ← parseF fuel ts
    parseTRest fuel (Expr.binop BOp.mul acc r) ts1
  | fuel + 1, acc, Tok.tsym '/' :: ts => do
    let (r, ts1) ← parseF fuel ts
    parseTRest fuel (Expr.binop BOp.div acc r) ts1
  | _ + 1, acc, ts => some (acc, ts)

/-- Parse a factor: optional unary minus (Python `-x`, modelled as `0 - x`,
which agrees on numbers) followed by an atom with trailers. -/
def parseF : Nat → List Tok → Option (Expr × List Tok)
  | 0, _ => none
  | fuel + 1, Tok.tsym '-' :: ts => do
    let (e, ts1) ← parseF fuel ts
    some (Expr.binop BOp.sub (Expr.num 0) e, ts1)
  | fuel + 1, ts => do
    let (a, ts1) ← parseAtom fuel ts
    parseTrail fuel a ts1

/-- Parse an atom: number, identifier, string literal or parenthesised
expression. -/
def parseAtom : Nat → List Tok → Option (Expr × List Tok)
  | 0, _ => none
  | _ + 1, Tok.tnum n :: ts => some (Expr.num n, ts)
  | _ + 1, Tok.tid s :: ts => some (Expr.name s, ts)
  | _ + 1, Tok.tstr s :: ts => some (Expr.strLit s, ts)
  | fuel + 1, Tok.tsym '(' :: ts => do
    let (e, ts1) ← parseE fuel ts
    match ts1 with
    | Tok.tsym ')' :: ts2 => some (e, ts2)
    | _ => none
  | _, _ => none

/-- Parse trailers: attribute accesses `.name` and call argument lists. -/
def parseTrail : Nat → Expr → List Tok → Option (Expr × List Tok)
  | 0, _, _ => none
  | fuel + 1, a, Tok.tsym '.' :: Tok.tid f :: ts =>
    parseTrail fuel (Expr.attr a f) ts
  | fuel + 1, a, Tok.tsym '(' :: Tok.tsym ')' :: ts =>
    parseTrail fuel (Expr.call a ExprArgs.nil) ts
  | fuel + 1, a, Tok.tsym '(' :: ts => do
    let (args, ts1) ← parseArgsL fuel ts
    match ts1 with
    | Tok.tsym ')' :: ts2 => parseTrail fuel (Expr.call a args) ts2
    | _ => none
  | _ + 1, a, ts => some (a, ts)

/-- Parse a nonempty comma-separated argument list. -/
def parseArgsL : Nat → List Tok → Option (ExprArgs × List Tok)
  | 0, _ => none
  | fuel + 1, ts => do
    let (e, ts1) ← parseE fuel ts
    match ts1 with
    | Tok.tsym ',' :: ts2 => do
      let (rest, ts3) ← parseArgsL fuel ts2
      some (ExprArgs.cons e rest, ts3)
    | _ => some (ExprArgs.cons e ExprArgs.nil, ts1)
end

/-- Parse a whole formula string: tokenize, parse, require all tokens
consumed.  `none` models a Python `SyntaxError`. -/
def pyParse (s : String) : Option Expr :=
  match tokChars s.data.length s.data with
  | none => none
  | some ts =>
    match parseE (5 * ts.length + 10) ts with
    | some (e, []) => some e
    | _ => none

/-- Name resolution of `eval` under `calc`'s environment: the merged locals
`\x7b**input_values, 'abs': abs, 'max': max, 'min': min\x7d` (the three
builtins are written after the input bindings, so they win on collision),
then the globals `\x7b"__builtins__": None\x7d`, then a `NameError` since the
builtins module is replaced by `None`. -/
def resolveName (iv : List (String × PyVal)) (s : String) : Except PyErr PyVal :=
  if s = "abs" then .ok (.builtin "abs")
  else if s = "max" then .ok (.builtin "max")
  else if s = "min" then .ok (.builtin "min")
  else
    match List.lookup s iv with
    | some v => .ok v
    | none => if s = "__builtins__" then .ok .noneVal else .error (.nameErr s)

/-- Apply a binary operator to two values, with Python's semantics on the
fragment that can arise here: arithmetic on numbers (division by zero
raises `ZeroDivisionError`), `+` concatenates strings, everything else is a
`TypeError`. -/
def applyBOp : BOp → PyVal → PyVal → Except PyErr PyVal
  | .add, .num a, .num b => .ok (.num (a + b))
  | .sub, .num a, .num b => .ok (.num (a - b))
  | .mul, .num a, .num b => .ok (.num (a * b))
  | .div, .num a, .num b => if b = 0 then .error .zeroDiv else .ok (.num (a / b))
  | .add, .str a, .str b => .ok (.str (a ++ b))
  | _, _, _ => .error .typeErr

/-- Fold a binary rational operation over call arguments, failing on a
non-numeric argument (used for `min`/`max`). -/
def foldNum (f : ℚ → ℚ → ℚ) : ℚ → List PyVal → Except PyErr ℚ
  | a, [] => .ok a
  | a, .num q2 :: rest => foldNum f (f a q2) rest
  | _, _ => .error .typeErr

/-- Apply one of the builtin functions `abs`, `min`, `max` to evaluated
arguments. -/
def applyBuiltin (f : String) (args : List PyVal) : Except PyErr PyVal :=
  match f, args with
  | "abs", [.num q] => .ok (.num |q|)
  | "min", .num q :: rest => (foldNum min q rest).map PyVal.num
  | "max", .num q :: rest => (foldNum max q rest).map PyVal.num
  | _, _ => .error .typeErr

/-- Name of the class of a value, as returned by its `__class__` attribute. -/
def pyClassOf : PyVal → String
  | .num _ => "int"
  | .str _ => "str"
  | .builtin _ => "builtin_function_or_method"
  | .obj _ => "type"
  | .noneVal => "NoneType"

mutual
/-- Evaluator for the expression fragment, in the environment built by
`calc`.  Attribute access is part of Python expression evaluation and is
deliberately modelled (restricted to the universally available `__class__`;
any other attribute is conservatively an `AttributeError`): the restricted
globals of `eval` do not block it. -/
def evalExpr (iv : List (String × PyVal)) : Expr → Except PyErr PyVal
  | .num q => .ok (.num q)
  | .strLit s => .ok (.str s)
  | .name s => resolveName iv s
  | .binop op a b => do
    let va ← evalExpr iv a
    let vb ← evalExpr iv b
    applyBOp op va vb
  | .call f args => do
    let vf ← evalExpr iv f
    let vargs ← evalArgs iv args
    match vf with
    | .builtin b => applyBuiltin b vargs
    | _ => .error .typeErr
  | .attr e a => do
    let v ← evalExpr iv e
    if a = "__class__" then .ok (.obj (pyClassOf v)) else .error (.attrErr a)

/-- Evaluate an argument list left to right. -/
def evalArgs (iv : List (String × PyVal)) : ExprArgs → Except PyErr (List PyVal)
  | .nil => .ok []
  | .cons e rest => do
    let v ← evalExpr iv e
    let vs ← evalArgs iv rest
    .ok (v :: vs)
end

/-- Model of `eval(safe_formula, safe_globals, safe_locals)`:
parse the string, then evaluate in the sandbox environment. -/
def pyEval (s : String) (iv : List (String × PyVal)) : Except PyErr PyVal :=
  match pyParse s with
  | none => .error .syntaxErr
  | some e => evalExpr iv e

/-- A registry entry of `METRICS`: required input names, formula string and
description, exactly as in the Python dictionary values. -/
structure MetricSpec : Type where
  inputs : List String
  formula : String
  desc : String
deriving DecidableEq

set_option maxHeartbeats 2000000
set_option maxRecDepth 100000

/-- The metric registry `METRICS` of `metrics_interpreter.py`, transcribed
entry for entry in source order (a Python dict with unique keys, modelled as
an association list). -/
def METRICS : List (String × MetricSpec) := [
  ("revenue",                MetricSpec.mk ["is.NetRevenue"] "is.NetRevenue" "Total top-line sales"),
  ("cogs",                   MetricSpec.mk ["is.CostOfRevenue"] "is.CostOfRevenue" "Cost of goods / services"),
  ("gross_profit",           MetricSpec.mk ["revenue","cogs"] "revenue - cogs" "Revenue minus COGS"),
  ("rnd",                    MetricSpec.mk ["is.RD"] "is.RD" "Research & development exp."),
  ("sga",                    MetricSpec.mk ["is.SG&A"] "is.SG&A" "Selling, general & admin"),
  ("operating_income",       MetricSpec.mk ["is.OperatingIncome"] "is.OperatingIncome" "EBIT; income from operations"),
  ("ebit",                   MetricSpec.mk ["operating_income"] "operating_income" "Synonym for operating income"),
  ("interest_expense",       MetricSpec.mk ["is.InterestExpense"] "is.InterestExpense" "Net interest cost"),
  ("ebt",                    MetricSpec.mk ["is.IncomeBeforeTax"] "is.IncomeBeforeTax" "Earnings before tax"),
  ("tax_expense",            MetricSpec.mk ["is.IncomeTax"] "is.IncomeTax" "Provision for income taxes"),
  ("net_income",             MetricSpec.mk ["is.NetIncome"] "is.NetIncome" "Bottom-line profit"),
  ("eps_basic",              MetricSpec.mk ["is.EPSBasic"] "is.EPSBasic" "Earnings per share, basic"),
  ("eps_diluted",            MetricSpec.mk ["is.EPSDiluted"] "is.EPSDiluted" "Earnings per share, diluted"),
  ("cash",                   MetricSpec.mk ["bs.CashAndEquivalents"] "bs.CashAndEquivalents" "Cash & cash equivalents"),
  ("short_term_investments", MetricSpec.mk ["bs.ShortTermInvestments"] "bs.ShortTermInvestments" "Marketable securities"),
  ("accounts_receivable",    MetricSpec.mk ["bs.AccountsReceivable"] "bs.AccountsReceivable" "Trade receivables"),
  ("inventory",              MetricSpec.mk ["bs.Inventory"] "bs.Inventory" "Inventories"),
  ("current_assets",         MetricSpec.mk ["bs.TotalCurrentAssets"] "bs.TotalCurrentAssets" "Total current assets"),
  ("pp&e",                   MetricSpec.mk ["bs.PP&E"] "bs.PP&E" "Property, plant & equipment"),
  ("goodwill",               MetricSpec.mk ["bs.Goodwill"] "bs.Goodwill" "Goodwill intangible"),
  ("total_assets",           MetricSpec.mk ["bs.TotalAssets"] "bs.TotalAssets" "Sum of assets"),
  ("accounts_payable",       MetricSpec.mk ["bs.AccountsPayable"] "bs.AccountsPayable" "Trade accounts payable"),
  ("deferred_revenue",       MetricSpec.mk ["bs.DeferredRevenue"] "bs.DeferredRevenue" "Contract liabilities"),
  ("current_liabilities",    MetricSpec.mk ["bs.TotalCurrentLiabilities"] "bs.TotalCurrentLiabilities" "Due within 12 mo."),
  ("long_term_debt",         MetricSpec.mk ["bs.LongTermDebt"] "bs.LongTermDebt" "Borrowings >1 year"),
  ("total_liabilities",      MetricSpec.mk ["bs.TotalLiabilities"] "bs.TotalLiabilities" "All liabilities"),
  ("shareholders_equity",    MetricSpec.mk ["bs.TotalEquity"] "bs.TotalEquity" "Book value of equity"),
  ("cfo",                    MetricSpec.mk ["cf.CashFromOperations"] "cf.CashFromOperations" "Net cash from ops"),
  ("capex",                  MetricSpec.mk ["cf.CapEx"] "cf.CapEx" "Capital expenditures"),
  ("free_cash_flow",         MetricSpec.mk ["cfo","capex"] "cfo - capex" "CFO minus capex"),
  ("cff",                    MetricSpec.mk ["cf.CashFromFinancing"] "cf.CashFromFinancing" "Cash from financing"),
  ("cfi",                    MetricSpec.mk ["cf.CashFromInvesting"] "cf.CashFromInvesting" "Cash from investing"),
  ("gross_margin_pct",       MetricSpec.mk ["gross_profit","revenue"] "gross_profit / revenue" "Gross profit / revenue"),
  ("operating_margin_pct",   MetricSpec.mk ["operating_income","revenue"] "operating_income / revenue" "EBIT margin"),
  ("net_margin_pct",         MetricSpec.mk ["net_income","revenue"] "net_income / revenue" "Net profit margin"),
  ("rd_pct",                 MetricSpec.mk ["rnd","revenue"] "rnd / revenue" "R&D as % of sales"),
  ("sga_pct",                MetricSpec.mk ["sga","revenue"] "sga / revenue" "SG&A as % of sales"),
  ("fcf_margin_pct",         MetricSpec.mk ["free_cash_flow","revenue"] "free_cash_flow / revenue" "FCF margin"),
  ("ebitda",                 MetricSpec.mk ["operating_income","is.D&A"] "operating_income + is.D&A" "EBIT + depreciation & amort."),
  ("ebitda_margin_pct",      MetricSpec.mk ["ebitda","revenue"] "ebitda / revenue" "EBITDA margin"),
  ("eps_growth_pct",         MetricSpec.mk ["eps_diluted_t","eps_diluted_t-1"] "(eps_diluted_t/eps_diluted_t-1) - 1" "YoY EPS growth"),
  ("revenue_growth_pct",     MetricSpec.mk ["revenue_t","revenue_t-1"] "(revenue_t/revenue_t-1) - 1" "YoY top-line growth"),
  ("shares_out",             MetricSpec.mk ["is.WeightedAvgSharesDiluted"] "is.WeightedAvgSharesDiluted" "Diluted share count"),
  ("market_cap",             MetricSpec.mk ["price","shares_out"] "price * shares_out" "Price × diluted shares"),
  ("enterprise_value",       MetricSpec.mk ["market_cap","total_liabilities","cash"] "market_cap + total_liabilities - cash" "EV = Mcap + debt - cash"),
  ("ev_ebitda",              MetricSpec.mk ["enterprise_value","ebitda"] "enterprise_value / ebitda" "EV / EBITDA multiple"),
  ("price_sales",            MetricSpec.mk ["market_cap","revenue"] "market_cap / revenue" "P/S ratio"),
  ("price_earnings",         MetricSpec.mk ["price","eps_diluted"] "price / eps_diluted" "Trailing P/E"),
  ("dividend_yield_pct",     MetricSpec.mk ["dividend_per_share","price"] "dividend_per_share / price" "Dividends / price"),
  ("roic_pct",               MetricSpec.mk ["nopat","invested_capital"] "nopat / invested_capital" "Return on invested capital"),
  ("roe_pct",                MetricSpec.mk ["net_income","shareholders_equity"] "net_income / shareholders_equity" "Return on equity"),
  ("roa_pct",                MetricSpec.mk ["net_income","total_assets"] "net_income / total_assets" "Return on assets"),
  ("current_ratio",          MetricSpec.mk ["current_assets","current_liabilities"] "current_assets / current_liabilities" "Liquidity ratio"),
  ("quick_ratio",            MetricSpec.mk ["cash","short_term_investments","accounts_receivable","current_liabilities"] "(cash + short_term_investments + accounts_receivable) / current_liabilities" "Acid-test ratio"),
  ("debt_equity",            MetricSpec.mk ["long_term_debt","shareholders_equity"] "long_term_debt / shareholders_equity" "Leverage ratio"),
  ("debt_ebitda",            MetricSpec.mk ["long_term_debt","ebitda"] "long_term_debt / ebitda" "Debt / EBITDA"),
  ("interest_coverage",      MetricSpec.mk ["ebit","interest_expense"] "ebit / abs(interest_expense)" "EBIT / Interest"),
  ("ocf_conversion_pct",     MetricSpec.mk ["cfo","net_income"] "cfo / net_income" "Cash conversion (ops)"),
  ("capex_sales_pct",        MetricSpec.mk ["capex","revenue"] "capex / revenue" "Capex intensity"),
  ("dividend_payout_pct",    MetricSpec.mk ["dividend_per_share","eps_diluted"] "dividend_per_share / eps_diluted" "Payout ratio"),
  ("ev_sales",               MetricSpec.mk ["enterprise_value","revenue"] "enterprise_value / revenue" "EV / Sales"),
  ("ev_ebit",                MetricSpec.mk ["enterprise_value","ebit"] "enterprise_value / ebit" "EV / EBIT"),
  ("fcf_yield_pct",          MetricSpec.mk ["free_cash_flow","market_cap"] "free_cash_flow / market_cap" "FCF / market cap"),
  ("rd_growth_pct",          MetricSpec.mk ["rnd_t","rnd_t-1"] "(rnd_t/rnd_t-1) - 1" "YoY R&D growth"),
  ("capex_growth_pct",       MetricSpec.mk ["capex_t","capex_t-1"] "(capex_t/capex_t-1) - 1" "YoY CapEx growth"),
  ("employees",              MetricSpec.mk ["10K.Employees"] "10K.Employees" "Full-time headcount"),
  ("revenue_per_employee",   MetricSpec.mk ["revenue","employees"] "revenue / employees" "Efficiency metric"),
  ("segment_revenue",        MetricSpec.mk ["segment_df"] "lookup(segment_df, \x27SegmentName\x27)" "Revenue for a specific segment"),
  ("geo_revenue",            MetricSpec.mk ["geo_df"] "lookup(geo_df, \x27Region\x27)" "Revenue for a specific region"),
  ("total_return_1y_pct",    MetricSpec.mk ["price_t","price_t-252"] "(price_t/price_t-252) - 1" "1-year price return"),
  ("beta_2y",                MetricSpec.mk ["daily_returns","index_returns"] "regression_beta(daily_returns, index_returns)" "2-year beta vs S&P 500"),
  ("volatility_30d",         MetricSpec.mk ["daily_returns_30d"] "std(daily_returns_30d) * sqrt(252)" "30-day annualized vol"),
  ("carbon_intensity",       MetricSpec.mk ["ghg_scope1","revenue"] "ghg_scope1 / revenue" "tCO₂e / $ revenue"),
  ("board_independence_pct", MetricSpec.mk ["board_independent","board_total"] "board_independent / board_total" "Governance metric"),
  ("preferred_dividends",    MetricSpec.mk ["is.PreferredDividends"] "is.PreferredDividends" "Preferred payouts"),
  ("tangible_book_value",    MetricSpec.mk ["shareholders_equity","goodwill"] "shareholders_equity - goodwill" "Equity less intangibles"),
  ("price_book",             MetricSpec.mk ["price","tangible_book_value_per_share"] "price / tangible_book_value_per_share" "P/B on tangible BV"),
  ("working_capital",        MetricSpec.mk ["current_assets","current_liabilities"] "current_assets - current_liabilities" "Operational liquidity"),
  ("days_sales_outstanding", MetricSpec.mk ["accounts_receivable","revenue"] "(accounts_receivable / revenue) * 365" "Receivables / sales days"),
  ("days_inventory",         MetricSpec.mk ["inventory","cogs"] "(inventory / cogs) * 365" "Inventory days"),
  ("days_payables",          MetricSpec.mk ["accounts_payable","cogs"] "(accounts_payable / cogs) * 365" "Payables days"),
  ("cash_conversion_cycle",  MetricSpec.mk ["days_inventory","days_sales_outstanding","days_payables"] "days_inventory + days_sales_outstanding - days_payables" "Supply-chain cash cycle"),
  ("interest_bearing_debt",  MetricSpec.mk ["long_term_debt","bs.ShortTermDebt"] "long_term_debt + bs.ShortTermDebt" "All debt obligations"),
  ("ltm_revenue",            MetricSpec.mk ["revenue_t","revenue_t-1","revenue_t-2","revenue_t-3"] "sum(last_4_quarters)" "Trailing-12-month revenue")
]

/-- The alias table `METRIC_ALIASES` of `metrics_interpreter.py`, transcribed
in source order. -/
def METRIC_ALIASES : List (String × String) := [
  ("sales", "revenue"),
  ("top_line", "revenue"),
  ("profits", "net_income"),
  ("earnings", "net_income"),
  ("bottom_line", "net_income"),
  ("r&d", "rnd"),
  ("research_and_development", "rnd"),
  ("operating_profit", "operating_income"),
  ("ebit_margin", "operating_margin_pct"),
  ("profit_margin", "net_margin_pct"),
  ("net_profit_margin", "net_margin_pct"),
  ("gross_margin", "gross_margin_pct"),
  ("fcf", "free_cash_flow"),
  ("operating_cash_flow", "cfo"),
  ("ppe", "pp&e"),
  ("property_plant_equipment", "pp&e"),
  ("debt", "long_term_debt"),
  ("equity", "shareholders_equity"),
  ("book_value", "shareholders_equity"),
  ("assets", "total_assets"),
  ("liabilities", "total_liabilities"),
  ("ar", "accounts_receivable"),
  ("ap", "accounts_payable"),
  ("pe_ratio", "price_earnings"),
  ("pe", "price_earnings"),
  ("ps", "price_sales"),
  ("ps_ratio", "price_sales")
]

/-- Alias resolution step used at the start of `calculate_metric`,
`get_metric_definition` and `get_metric_requirements`:
`if metric_name in METRIC_ALIASES: metric_name = METRIC_ALIASES[metric_name]`. -/
def resolveAlias (name : String) : String :=
  match List.lookup name METRIC_ALIASES with
  | some c => c
  | none => name

/-- Suffix test `metric_name.endswith('_pct')`. -/
def endsPct (name : String) : Bool :=
  "_pct".data.isSuffixOf name.data

/-- The rewritten (safe) formula computed by `calc`: for each declared input
whose sanitized name differs from it, replace every occurrence inside the
formula text.  Note that this is a function of the registry entry alone; the
dataset never contributes to the evaluated text. -/
def safeFormulaOf (spec : MetricSpec) : String :=
  spec.inputs.foldl
    (fun f inp =>
      let safe := sanitize inp
      if inp ≠ safe then strReplace f inp safe else f)
    spec.formula

/-- The `input_values` dictionary built by `calc`: each declared input's
sanitized name bound to its dataset value.  Later inputs are prepended so
that first-match lookup realises Python dict overwrite (last write wins).
Python raises upon hitting a missing input inside this loop; the model
performs the missing check before calling this function, which is
observationally the same. -/
def buildInputVals (inputs : List String) (data : List (String × PyVal)) :
    List (String × PyVal) :=
  inputs.foldl
    (fun acc inp =>
      match List.lookup inp data with
      | some v => (sanitize inp, v) :: acc
      | none => acc)
    []

/-- The general (non-shortcut) path of `calc`: check inputs, build the
sandbox bindings, rewrite the formula, evaluate it, and wrap any evaluation
fault in the `ValueError` message `calc` raises. -/
def calcGeneral (spec : MetricSpec) (data : List (String × PyVal)) :
    Except String PyVal :=
  let missing := spec.inputs.filter (fun inp => (List.lookup inp data).isNone)
  if missing ≠ [] then
    .error ("Missing values for inputs: " ++ pyListRepr missing)
  else
    let safe_formula := safeFormulaOf spec
    match pyEval safe_formula (buildInputVals spec.inputs data) with
    | .ok v => .ok v
    | .error e =>
      .error ("Error evaluating formula \x27" ++ safe_formula ++ "\x27: " ++ errStr e)

/-- Model of the module-level `calc(metrics_dict, key, data)` (named `calcFn`
here because `calc` is a Lean keyword): direct single-input references are
passed through untouched; anything else goes through the
rewrite-and-evaluate path. -/
def calcFn (metricsDict : List (String × MetricSpec)) (key : String)
    (data : List (String × PyVal)) : Except String PyVal :=
  match List.lookup key metricsDict with
  | none => .error ("KeyError: \x27" ++ key ++ "\x27")
  | some spec =>
    match spec.inputs with
    | [i] =>
      if spec.formula = i then
        match List.lookup i data with
        | some v => .ok v
        | none => .error ("Missing value for input: " ++ i)
      else calcGeneral spec data
    | _ => calcGeneral spec data

/-- Result dictionary of `calculate_metric`.  Python returns dicts with
varying key sets; keys that a given outcome does not set are modelled as
`none` / `[]` defaults. -/
structure CalcResult : Type where
  success : Bool
  error : Option String := none
  metric : Option String := none
  value : Option PyVal := none
  formula : Option String := none
  description : Option String := none
  missing_inputs : List String := []
  inputs_used : List (String × PyVal) := []
deriving DecidableEq

/-- The body of `calc` followed by the percentage post-processing inside the
`try` block of `calculate_metric`:
`if metric_name.endswith('_pct') and not isinstance(result, str): result = result * 100`.
Multiplying a non-number, non-string result by `100` would itself raise a
`TypeError`, which the surrounding handler also catches. -/
def calcScaled (metric_name : String) (data : List (String × PyVal)) :
    Except String PyVal :=
  match calcFn METRICS metric_name data with
  | .error e => .error e
  | .ok r =>
    if endsPct metric_name then
      match r with
      | .str _ => .ok r
      | .num q => .ok (.num (q * 100))
      | _ => .error (errStr .typeErr)
    else .ok r

/-- Body of `MetricsInterpreter.calculate_metric` after alias resolution:
registry lookup, direct-input presence check, evaluation via `calc`,
percentage scaling, and packaging into a structured result.  Every error is
returned as a `success := false` record; nothing escapes. -/
def calculate_metricR (metric_name : String) (data : List (String × PyVal)) :
    CalcResult :=
  match List.lookup metric_name METRICS with
  | none =>
    { success := false
      error := some ("Unknown metric \x27" ++ metric_name ++ "\x27") }
  | some spec =>
    let missing := spec.inputs.filter (fun inp => (List.lookup inp data).isNone)
    if missing ≠ [] then
      { success := false
        error := some ("Missing data for inputs: " ++ joinComma missing)
        metric := some metric_name
        missing_inputs := missing }
    else
      match calcScaled metric_name data with
      | .error e =>
        { success := false
          error := some ("Error calculating metric: " ++ e)
          metric := some metric_name
          formula := some spec.formula }
      | .ok result =>
        { success := true
          metric := some metric_name
          value := some result
          formula := some spec.formula
          description := some spec.desc
          inputs_used := spec.inputs.filterMap
            (fun inp => (List.lookup inp data).map (fun v => (inp, v))) }

/-- Model of `MetricsInterpreter.calculate_metric`: resolve the alias, then
run the resolved-name body. -/
def calculate_metric (metric_name : String) (data : List (String × PyVal)) :
    CalcResult :=
  calculate_metricR (resolveAlias metric_name) data

/-- Identifier runs of a formula string: maximal runs of identifier
characters that are not pure digit literals.  Applied to the rewritten
formula, this is the set of names the evaluator would have to resolve. -/
def identRuns : Nat → List Char → List String
  | _, [] => []
  | 0, _ => []
  | fuel + 1, c :: cs =>
    if identChar c then
      let run := c :: cs.takeWhile identChar
      let rest := cs.dropWhile identChar
      if run.all Char.isDigit then identRuns fuel rest
      else String.mk run :: identRuns fuel rest
    else identRuns fuel cs

/-- Identifiers occurring in a string. -/
def identsOf (s : String) : List String :=
  identRuns s.data.length s.data

/-- The names the sandbox exposes besides the input bindings. -/
def builtinNames : List String := ["abs", "min", "max"]

/-- Registry well-formedness check behind claim C2: every identifier of the
(input-rewritten) formula is a sanitized required input or a builtin. -/
def formulaIdentsOK (spec : MetricSpec) : Bool :=
  (identsOf (safeFormulaOf spec)).all
    (fun id => (spec.inputs.map sanitize).contains id || builtinNames.contains id)

/-- All input identifiers mentioned anywhere in the registry, deduplicated. -/
def allRegistryInputs : List String :=
  (METRICS.map (fun p => p.2.inputs)).flatten.dedup

/-- Test for the reserved statement-namespace prefixes,
`inp.startswith(("is.", "bs.", "cf."))`. -/
def stmtPfxd (s : String) : Bool :=
  ["is.", "bs.", "cf."].any (fun p => p.data.isPrefixOf s.data)

/-- Model of `set.add`: Python sets are modelled as duplicate-free lists, so
insertion appends only when the element is new. -/
def insertDedup (l : List String) (x : String) : List String :=
  if x ∈ l then l else l ++ [x]

/-- Adding to the modelled set preserves freedom from duplicates. -/
theorem nodup_insertDedup (l : List String) (x : String) (h : l.Nodup) :
    (insertDedup l x).Nodup := by
  unfold insertDedup
  split
  · exact h
  · next hx => simpa [List.nodup_append] using ⟨h, hx⟩

/-- Number of registry keys not yet in the visited set; the well-founded
measure of requirement expansion. -/
def unvisited (reg : List (String × MetricSpec)) (processed : List String) : Nat :=
  ((reg.map Prod.fst).filter (fun n => !(processed.contains n))).length

/-- Filtering with a stronger predicate keeps at most as many elements. -/
theorem length_filter_le_of_imp {p q : String → Bool}
    (h : ∀ a, q a = true → p a = true) :
    ∀ l : List String, (l.filter q).length ≤ (l.filter p).length := by
  intro l
  induction l with
  | nil => simp
  | cons x xs ih =>
    by_cases hq : q x = true
    · rw [List.filter_cons_of_pos hq, List.filter_cons_of_pos (h x hq)]
      exact Nat.succ_le_succ ih
    · rw [List.filter_cons_of_neg (by simpa using hq)]
      by_cases hp : p x = true
      · rw [List.filter_cons_of_pos hp]
        exact Nat.le_succ_of_le ih
      · rw [List.filter_cons_of_neg (by simpa using hp)]
        exact ih

/-- Growing the visited set can only shrink the measure. -/
theorem unvisited_le_of_subset (reg : List (String × MetricSpec))
    {p p2 : List String} (h : p ⊆ p2) :
    unvisited reg p2 ≤ unvisited reg p := by
  refine length_filter_le_of_imp (fun a ha => ?_) _
  simp only [Bool.not_eq_true'] at ha ⊢
  simp only [List.contains_eq_any_beq] at ha ⊢
  rcases hb : p.any (a == ·) with _ | _
  · rfl
  · exfalso
    have hmem : a ∈ p := by
      rcases List.any_eq_true.mp hb with ⟨x, hx, hax⟩
      exact (beq_iff_eq ..).mp hax ▸ hx
    have : p2.any (a == ·) = true :=
      List.any_eq_true.mpr ⟨a, h hmem, (beq_iff_eq ..).mpr rfl⟩
    rw [ha] at this
    cases this

/-- Visiting a fresh registry key strictly shrinks the measure. -/
theorem unvisited_cons_lt (reg : List (String × MetricSpec)) {m : String}
    {p : List String} (hm : m ∈ reg.map Prod.fst) (hmp : m ∉ p) :
    unvisited reg (m :: p) < unvisited reg p := by
  unfold unvisited
  have hcontains : ∀ (q : List String) (a : String), q.contains a = true ↔ a ∈ q := by
    intro q a
    simp
  generalize reg.map Prod.fst = L at hm ⊢
  induction L with
  | nil => cases hm
  | cons x xs ih =>
    rcases List.mem_cons.mp hm with hx | hx
    · subst hx
      rw [List.filter_cons_of_neg (by simp [hcontains]),
        List.filter_cons_of_pos (by simp [hcontains, hmp])]
      refine Nat.lt_succ_of_le ?_
      refine length_filter_le_of_imp (fun a ha => ?_) _
      simp only [Bool.not_eq_true'] at ha ⊢
      rcases hb : p.contains a with _ | _
      · rfl
      · exfalso
        have : (m :: p).contains a = true := by
          rw [hcontains] at hb ⊢
          exact List.mem_cons_of_mem _ hb
        rw [ha] at this
        cases this
    · by_cases hxp : x ∈ p
      · rw [List.filter_cons_of_neg (by simp [hcontains, hxp]),
          List.filter_cons_of_neg (by simp [hcontains, hxp])]
        exact ih hx
      · by_cases hxm : x = m
        · subst hxm
          rw [List.filter_cons_of_neg (by simp [hcontains]),
            List.filter_cons_of_pos (by simp [hcontains, hxp])]
          refine Nat.lt_succ_of_le ?_
          refine length_filter_le_of_imp (fun a ha => ?_) _
          simp only [Bool.not_eq_true'] at ha ⊢
          rcases hb : p.contains a with _ | _
          · rfl
          · exfalso
            have : (x :: p).contains a = true := by
              rw [hcontains] at hb ⊢
              exact List.mem_cons_of_mem _ hb
            rw [ha] at this
            cases this
        · rw [List.filter_cons_of_pos (by simp [hcontains, hxm, hxp]),
            List.filter_cons_of_pos (by simp [hcontains, hxp])]
          exact Nat.succ_lt_succ (ih hx)

/-- A successful association-list lookup witnesses key membership. -/
theorem lookup_some_mem_keys {α : Type} {l : List (String × α)} {k : String}
    {v : α} (h : List.lookup k l = some v) : k ∈ l.map Prod.fst := by
  induction l with
  | nil => simp [List.lookup] at h
  | cons e es ih =>
    rw [List.lookup] at h
    split at h
    · next heq =>
      simp only [List.map_cons, List.mem_cons]
      exact Or.inl (by simpa [eq_comm] using (beq_iff_eq ..).mp heq)
    · exact List.mem_cons_of_mem _ (ih h)

/-- A successful association-list lookup witnesses pair membership. -/
theorem lookup_some_mem {α : Type} {l : List (String × α)} {k : String}
    {v : α} (h : List.lookup k l = some v) : (k, v) ∈ l := by
  induction l with
  | nil => simp [List.lookup] at h
  | cons e es ih =>
    rw [List.lookup] at h
    split at h
    · next heq =>
      cases h
      simp only [List.mem_cons]
      exact Or.inl (by
        obtain ⟨k2, v2⟩ := e
        simp only at heq ⊢
        exact Prod.ext (by simpa [eq_comm] using (beq_iff_eq ..).mp heq) rfl)
    · exact List.mem_cons_of_mem _ (ih h)

mutual
/-- Model of `collect_inputs(metric)` in `get_metric_requirements`: skip
metrics already processed or absent from the registry, otherwise mark the
metric processed and walk its inputs.  The state is the pair
`(all_inputs, processed_metrics)` (both Python sets, modelled as
duplicate-free lists).  The returned subtype packages the two invariants
that justify termination and the no-duplicates result: the visited set only
grows, and a duplicate-free accumulator stays duplicate-free. -/
def collectRec (reg : List (String × MetricSpec)) (m : String)
    (st : List String × List String) :
    {r : List String × List String // st.2 ⊆ r.2 ∧ (st.1.Nodup → r.1.Nodup)} :=
  if h : m ∈ st.2 ∨ (List.lookup m reg).isNone then
    ⟨st, List.Subset.refl _, fun hn => hn⟩
  else
    match hl : List.lookup m reg with
    | none => ⟨st, List.Subset.refl _, fun hn => hn⟩
    | some spec =>
      match collectList reg spec.inputs (st.1, m :: st.2) with
      | ⟨r, hr⟩ =>
        ⟨r, fun x hx => hr.1 (List.mem_cons_of_mem _ hx), hr.2⟩
termination_by (unvisited reg st.2, 0)
decreasing_by
  apply Prod.Lex.left
  push_neg at h
  exact unvisited_cons_lt reg (lookup_some_mem_keys hl) h.1

/-- The `for inp in METRICS[metric]["inputs"]` loop of `collect_inputs`:
add each input to `all_inputs`, and recurse into it when it is a
non-prefixed registry metric. -/
def collectList (reg : List (String × MetricSpec)) (l : List String)
    (st : List String × List String) :
    {r : List String × List String // st.2 ⊆ r.2 ∧ (st.1.Nodup → r.1.Nodup)} :=
  match l with
  | [] => ⟨st, List.Subset.refl _, fun hn => hn⟩
  | inp :: rest =>
    let st1 : List String × List String := (insertDedup st.1 inp, st.2)
    match (if (!stmtPfxd inp && (List.lookup inp reg).isSome) = true
           then collectRec reg inp st1
           else ⟨st1, List.Subset.refl _, fun hn => hn⟩ :
           {r : List String × List String // st1.2 ⊆ r.2 ∧ (st1.1.Nodup → r.1.Nodup)}) with
    | ⟨r1, hr1⟩ =>
      match collectList reg rest r1 with
      | ⟨r2, hr2⟩ =>
        ⟨r2, fun x hx => hr2.1 (hr1.1 hx),
          fun hn => hr2.2 (hr1.2 (nodup_insertDedup _ _ hn))⟩
termination_by (unvisited reg st.2, l.length + 1)
decreasing_by
  · apply Prod.Lex.right
    omega
  · have hle : unvisited reg r1.2 ≤ unvisited reg st.2 :=
      unvisited_le_of_subset reg hr1.1
    rcases Nat.lt_or_ge (unvisited reg r1.2) (unvisited reg st.2) with hlt | hge
    · exact Prod.Lex.left _ _ hlt
    · have heq : unvisited reg r1.2 = unvisited reg st.2 := Nat.le_antisymm hle hge
      rw [heq]
      apply Prod.Lex.right
      simp [List.length_cons]
end

/-- Result record of `get_metric_requirements` (success case).  Python
returns `list(all_inputs)` of a set; the model's list order is the
insertion order of the deduplicating insert. -/
structure ReqResult : Type where
  metric : String
  description : String
  formula : String
  direct_inputs : List String
  all_required_inputs : List String
  income_statement_inputs : List String
  balance_sheet_inputs : List String
  cash_flow_inputs : List String
  derived_inputs : List String
deriving DecidableEq

/-- Model of `get_metric_requirements` from `metrics_utils.py`, abstracted
over the registry it walks (the Python function reads the module-level
`METRICS`; the registry is a parameter here so the termination guarantee is
established for every registry, cyclic ones included).  Unknown metrics
yield the error dictionary, modelled as `Except.error`. -/
def get_metric_requirements (reg : List (String × MetricSpec))
    (name : String) : Except String ReqResult :=
  let n := resolveAlias name
  match List.lookup n reg with
  | none => .error ("Unknown metric: " ++ n)
  | some info =>
    let st0 : List String × List String := (info.inputs.foldl insertDedup [], [])
    let st1 := info.inputs.foldl
      (fun s inp =>
        if (!stmtPfxd inp && (List.lookup inp reg).isSome) = true
        then (collectRec reg inp s).1 else s)
      st0
    .ok
      { metric := n
        description := info.desc
        formula := info.formula
        direct_inputs := info.inputs
        all_required_inputs := st1.1
        income_statement_inputs := st1.1.filter (fun i => "is.".data.isPrefixOf i.data)
        balance_sheet_inputs := st1.1.filter (fun i => "bs.".data.isPrefixOf i.data)
        cash_flow_inputs := st1.1.filter (fun i => "cf.".data.isPrefixOf i.data)
        derived_inputs := st1.1.filter (fun i => !stmtPfxd i) }

/-- Value-level unfolding of `collectRec` (the invariant payload of the
subtype is proof-irrelevant and drops out). -/
theorem collectRec_val (reg : List (String × MetricSpec)) (m : String)
    (st : List String × List String) :
    (collectRec reg m st).1 =
      if m ∈ st.2 ∨ (List.lookup m reg).isNone then st
      else
        match List.lookup m reg with
        | none => st
        | some spec => (collectList reg spec.inputs (st.1, m :: st.2)).1 := by
  rw [collectRec.eq_def]
  split
  · rfl
  · split
    case h_1 heq => rw [heq]
    case h_2 spec heq => rw [heq]

/-- Value-level unfolding of `collectList`. -/
theorem collectList_val (reg : List (String × MetricSpec)) (l : List String)
    (st : List String × List String) :
    (collectList reg l st).1 =
      match l with
      | [] => st
      | inp :: rest =>
        (collectList reg rest
          (if (!stmtPfxd inp && (List.lookup inp reg).isSome) = true
           then (collectRec reg inp (insertDedup st.1 inp, st.2)).1
           else (insertDedup st.1 inp, st.2))).1 := by
  rw [collectList.eq_def]
  cases l with
  | nil => rfl
  | cons inp rest =>
    simp only []
    rw [apply_ite (Subtype.val)]

/-- Walking an empty input list leaves the state unchanged. -/
theorem collectList_nil (reg : List (String × MetricSpec))
    (st : List String × List String) : (collectList reg [] st).1 = st := by
  rw [collectList_val]

/-- Loop step for an input that is prefixed or not a registry metric: only
`all_inputs` grows. -/
theorem collectList_cons_skip (reg : List (String × MetricSpec)) (inp : String)
    (rest : List String) (st : List String × List String)
    (h : (!stmtPfxd inp && (List.lookup inp reg).isSome) = false) :
    (collectList reg (inp :: rest) st).1 =
      (collectList reg rest (insertDedup st.1 inp, st.2)).1 := by
  rw [collectList_val]
  show (collectList reg rest
    (if (!stmtPfxd inp && (List.lookup inp reg).isSome) = true
     then (collectRec reg inp (insertDedup st.1 inp, st.2)).1
     else (insertDedup st.1 inp, st.2))).1 = _
  rw [h]
  simp

/-- Loop step for an input that is itself a registry metric: recurse. -/
theorem collectList_cons_rec (reg : List (String × MetricSpec)) (inp : String)
    (rest : List String) (st : List String × List String)
    (h : (!stmtPfxd inp && (List.lookup inp reg).isSome) = true) :
    (collectList reg (inp :: rest) st).1 =
      (collectList reg rest
        (collectRec reg inp (insertDedup st.1 inp, st.2)).1).1 := by
  rw [collectList_val]
  show (collectList reg rest
    (if (!stmtPfxd inp && (List.lookup inp reg).isSome) = true
     then (collectRec reg inp (insertDedup st.1 inp, st.2)).1
     else (insertDedup st.1 inp, st.2))).1 = _
  rw [h]
  simp

/-- A metric already processed (or foreign to the registry) is not expanded:
this is the visited-set cycle guard, and it is not an error. -/
theorem collectRec_visited (reg : List (String × MetricSpec)) (m : String)
    (st : List String × List String)
    (h : m ∈ st.2 ∨ (List.lookup m reg).isNone) : (collectRec reg m st).1 = st := by
  rw [collectRec_val, if_pos h]

/-- A fresh registry metric is marked processed and its inputs are walked. -/
theorem collectRec_new (reg : List (String × MetricSpec)) (m : String)
    (st : List String × List String) (spec : MetricSpec)
    (h1 : ¬(m ∈ st.2 ∨ (List.lookup m reg).isNone))
    (h2 : List.lookup m reg = some spec) :
    (collectRec reg m st).1 = (collectList reg spec.inputs (st.1, m :: st.2)).1 := by
  rw [collectRec_val, if_neg h1, h2]

/-- Does a registry entry take the passthrough shortcut of `calcFn`? -/
def isPassthroughB (spec : MetricSpec) : Bool :=
  match spec.inputs with
  | [i] => spec.formula == i
  | _ => false

/-- Does a string parse as exactly the bare identifier it denotes? -/
def parsesToNameB (s : String) : Bool :=
  match pyParse s with
  | some (Expr.name t) => t == s
  | _ => false

/-- Unfold `parsesToNameB`. -/
theorem parsesToNameB_eq {s : String} (h : parsesToNameB s = true) :
    pyParse s = some (Expr.name s) := by
  unfold parsesToNameB at h
  match hp : pyParse s with
  | none => rw [hp] at h; cases h
  | some (Expr.num q) => rw [hp] at h; cases h
  | some (Expr.strLit t) => rw [hp] at h; cases h
  | some (Expr.name t) =>
    rw [hp] at h
    simp only [beq_iff_eq] at h
    rw [h]
  | some (Expr.binop op a b) => rw [hp] at h; cases h
  | some (Expr.call f a) => rw [hp] at h; cases h
  | some (Expr.attr e a) => rw [hp] at h; cases h

/-- A nonempty string is a prefix of itself. -/
theorem isPrefixOf_self (l : List Char) : l.isPrefixOf l = true := by
  induction l with
  | nil => rfl
  | cons c cs ih => simp [List.isPrefixOf, ih]

/-- Replacing the whole string by `r` yields `r`: the single-input rewrite
of `calcFn` on a passthrough formula produces exactly the sanitized name. -/
theorem strReplace_self (s r : String) (hs : s.data ≠ []) :
    strReplace s s r = r := by
  unfold strReplace
  match hd : s.data with
  | [] => exact absurd hd hs
  | c :: cs =>
    rw [List.length_cons, replChars]
    rw [if_pos ⟨by simp, isPrefixOf_self _⟩]
    rw [List.length_cons]
    rw [show cs.length + 1 - 1 = cs.length from rfl, List.drop_length]
    show String.mk (r.data ++ replChars (c :: cs) r.data cs.length []) = r
    have : replChars (c :: cs) r.data cs.length [] = [] := by
      cases cs.length <;> rfl
    rw [this, List.append_nil]

/-- Appending a set insertion preserves duplicate-freedom through a fold. -/
theorem nodup_foldl_insertDedup (l : List String) :
    ∀ acc : List String, acc.Nodup → (l.foldl insertDedup acc).Nodup := by
  induction l with
  | nil => intro acc h; exact h
  | cons x xs ih => intro acc h; exact ih _ (nodup_insertDedup _ _ h)

/-- The requirement-expansion loop preserves duplicate-freedom of the
accumulated closure (via the invariant carried by `collectRec`). -/
theorem nodup_foldl_collect (reg : List (String × MetricSpec)) (l : List String) :
    ∀ st : List String × List String, st.1.Nodup →
    (l.foldl
      (fun s inp =>
        if (!stmtPfxd inp && (List.lookup inp reg).isSome) = true
        then (collectRec reg inp s).1 else s) st).1.Nodup := by
  induction l with
  | nil => intro st h; exact h
  | cons x xs ih =>
    intro st h
    simp only [List.foldl_cons]
    apply ih
    by_cases hc : (!stmtPfxd x && (List.lookup x reg).isSome) = true
    · rw [if_pos hc]
      exact (collectRec reg x st).2.2 h
    · rw [if_neg hc]
      exact h

/-- Claim C1, counterexample: the claim that no attribute access is
reachable from the evaluation scope is false.  A formula string containing
an attribute expression evaluates successfully inside `calcFn`'s sandbox:
`(1).__class__` yields the class object `int` rather than faulting, because
restricting the globals of `eval` to a `None` builtins entry does not
disable attribute access on values. -/
theorem calc_attr_access_reachable :
    calcFn [("m", MetricSpec.mk ["x"] "(1).__class__" "")] "m" [("x", PyVal.num 1)] =
      .ok (.obj "int") := by
  with_unfolding_all decide

/-- Claim C2, counterexample: the entry `ltm_revenue` violates the
registry invariant.  Its formula `sum(last_4_quarters)` contains the
identifier `sum`, which is neither a sanitized required input nor one of
the builtins `abs`/`min`/`max`. -/
theorem registry_invariant_fails_ltm_revenue :
    List.lookup "ltm_revenue" METRICS =
      some (MetricSpec.mk ["revenue_t","revenue_t-1","revenue_t-2","revenue_t-3"]
        "sum(last_4_quarters)" "Trailing-12-month revenue") ∧
    "sum" ∈ identsOf (safeFormulaOf (MetricSpec.mk
      ["revenue_t","revenue_t-1","revenue_t-2","revenue_t-3"]
      "sum(last_4_quarters)" "Trailing-12-month revenue")) ∧
    "sum" ∉ (["revenue_t","revenue_t-1","revenue_t-2","revenue_t-3"].map sanitize) ∧
    "sum" ∉ builtinNames ∧
    formulaIdentsOK (MetricSpec.mk
      ["revenue_t","revenue_t-1","revenue_t-2","revenue_t-3"]
      "sum(last_4_quarters)" "Trailing-12-month revenue") = false := by
  decide

/-- Claim C2, amended: for every registry entry except the five
placeholder/statistical entries `segment_revenue`, `geo_revenue`,
`beta_2y`, `volatility_30d` and `ltm_revenue`, every identifier appearing
in the (input-rewritten) formula appears in the sanitized required-inputs
list or is one of the builtins `abs`, `min`, `max`. -/
theorem registry_formula_idents_closed :
    ∀ p ∈ METRICS,
      p.1 ∉ ["segment_revenue", "geo_revenue", "beta_2y", "volatility_30d", "ltm_revenue"] →
      formulaIdentsOK p.2 = true := by
  decide

/-- Witness for the amended claim C2, instantiated at `gross_profit`. -/
theorem registry_formula_idents_closed_witness :
    ("gross_profit", MetricSpec.mk ["revenue","cogs"] "revenue - cogs"
      "Revenue minus COGS") ∈ METRICS ∧
    ("gross_profit" : String) ∉
      ["segment_revenue", "geo_revenue", "beta_2y", "volatility_30d", "ltm_revenue"] ∧
    formulaIdentsOK (MetricSpec.mk ["revenue","cogs"] "revenue - cogs"
      "Revenue minus COGS") = true :=
  ⟨by decide, by decide,
    registry_formula_idents_closed
      ("gross_profit", MetricSpec.mk ["revenue","cogs"] "revenue - cogs"
        "Revenue minus COGS") (by decide) (by decide)⟩

/-- Claim C6, counterexample: the sanitization is not collision-free on
arbitrary distinct identifiers, since both `.` and `-` map to `_`: the
distinct identifiers `a.b` and `a-b` receive the same safe token `a_b`. -/
theorem sanitize_collision_example :
    sanitize "a.b" = sanitize "a-b" ∧ "a.b" ≠ "a-b" := by decide

/-- Claim C6, amended: the sanitization is deterministic (it is a
function), it is injective on the set of input identifiers actually used
anywhere in the registry (their sanitized forms are pairwise distinct),
and in every registry entry each input whose sanitized name differs from
it has every occurrence rewritten away in the formula text the evaluator
receives.  What fails is only collision-freedom over arbitrary distinct
identifiers (see the counterexample). -/
theorem sanitize_injective_on_registry :
    (allRegistryInputs.map sanitize).Nodup ∧
    allRegistryInputs.Nodup ∧
    ∀ p ∈ METRICS, ∀ inp ∈ p.2.inputs,
      sanitize inp ≠ inp → occursStr inp (safeFormulaOf p.2) = false := by
  refine ⟨by decide, by decide, by decide⟩

/-- Witness for the amended claim C6, instantiated at the input `is.D&A`
of the `ebitda` entry. -/
theorem sanitize_injective_on_registry_witness :
    ("ebitda", MetricSpec.mk ["operating_income","is.D&A"] "operating_income + is.D&A"
      "EBIT + depreciation & amort.") ∈ METRICS ∧
    "is.D&A" ∈ ["operating_income","is.D&A"] ∧
    sanitize "is.D&A" ≠ "is.D&A" ∧
    occursStr "is.D&A" (safeFormulaOf (MetricSpec.mk ["operating_income","is.D&A"]
      "operating_income + is.D&A" "EBIT + depreciation & amort.")) = false :=
  ⟨by decide, by decide, by decide,
    sanitize_injective_on_registry.2.2
      ("ebitda", MetricSpec.mk ["operating_income","is.D&A"] "operating_income + is.D&A"
        "EBIT + depreciation & amort.") (by decide) "is.D&A" (by decide) (by decide)⟩

/-- Claim C1, amended: name isolation of the sandbox.  A name resolves in
the evaluation scope exactly when it is a transformed input binding, one of
`abs`, `max`, `min`, or the inert `__builtins__` (bound to `None`); any
other name fails with a `NameError`.  Statements and `import` do not exist
at expression level.  The part of the original claim that fails is only
the unreachability of attribute access (see the counterexample). -/
theorem sandbox_name_isolation :
    (∀ (iv : List (String × PyVal)) (s : String),
      (okVal (evalExpr iv (Expr.name s))).isSome = true ↔
        (s = "abs" ∨ s = "max" ∨ s = "min" ∨ s = "__builtins__" ∨
          (List.lookup s iv).isSome = true)) ∧
    (∀ (iv : List (String × PyVal)) (s : String),
      s ≠ "abs" → s ≠ "max" → s ≠ "min" → s ≠ "__builtins__" →
      List.lookup s iv = none →
      evalExpr iv (Expr.name s) = .error (.nameErr s)) := by
  constructor
  · intro iv s
    show (okVal (resolveName iv s)).isSome = true ↔ _
    unfold resolveName
    by_cases h1 : s = "abs" <;> by_cases h2 : s = "max" <;> by_cases h3 : s = "min" <;>
      by_cases hb : s = "__builtins__" <;> cases hl : List.lookup s iv <;>
      simp [okVal, h1, h2, h3, hb, hl]
  · intro iv s h1 h2 h3 hb hl
    show resolveName iv s = _
    unfold resolveName
    rw [if_neg h1, if_neg h2, if_neg h3, hl]
    simp [hb]

/-- Claim C3: when any direct required input of a (resolved) registry
metric is absent from the dataset, `calculate_metric` returns the
missing-inputs failure record — no evaluation result is produced — and the
`missing_inputs` list enumerates exactly the absent input names. -/
theorem missing_inputs_failure (name : String) (data : List (String × PyVal))
    (spec : MetricSpec)
    (hspec : List.lookup (resolveAlias name) METRICS = some spec)
    (hmiss : spec.inputs.filter (fun i => (List.lookup i data).isNone) ≠ []) :
    calculate_metric name data =
      { success := false
        error := some ("Missing data for inputs: " ++
          joinComma (spec.inputs.filter (fun i => (List.lookup i data).isNone)))
        metric := some (resolveAlias name)
        missing_inputs := spec.inputs.filter (fun i => (List.lookup i data).isNone) } ∧
    ∀ i, i ∈ spec.inputs.filter (fun i => (List.lookup i data).isNone) ↔
      (i ∈ spec.inputs ∧ List.lookup i data = none) := by
  constructor
  · simp only [calculate_metric, calculate_metricR, hspec]
    rw [if_pos hmiss]
  · intro i
    simp [List.mem_filter, Option.isNone_iff_eq_none]

/-- Witness for the amended claim C1: a bound name resolves, while `open`
and `__import__` raise `NameError` in the sandbox. -/
theorem sandbox_name_isolation_witness :
    (okVal (evalExpr [("net_income", PyVal.num 1)] (Expr.name "net_income"))).isSome = true ∧
    evalExpr [] (Expr.name "open") = .error (.nameErr "open") ∧
    evalExpr [] (Expr.name "__import__") = .error (.nameErr "__import__") :=
  ⟨(sandbox_name_isolation.1 [("net_income", PyVal.num 1)] "net_income").mpr
      (by decide),
    sandbox_name_isolation.2 [] "open" (by decide) (by decide) (by decide) (by decide)
      (by decide),
    sandbox_name_isolation.2 [] "__import__" (by decide) (by decide) (by decide)
      (by decide) (by decide)⟩

/-- Witness for claim C3: calculating `gross_profit` on a dataset holding
only `revenue` fails naming exactly `cogs`. -/
theorem missing_inputs_failure_witness :
    ((MetricSpec.mk ["revenue","cogs"] "revenue - cogs" "Revenue minus COGS").inputs.filter
      (fun i => (List.lookup i [("revenue", PyVal.num 100)]).isNone)) ≠ [] ∧
    calculate_metric "gross_profit" [("revenue", PyVal.num 100)] =
      { success := false, error := some "Missing data for inputs: cogs",
        metric := some "gross_profit", missing_inputs := ["cogs"] } := by
  refine ⟨by decide, ?_⟩
  have h := (missing_inputs_failure "gross_profit" [("revenue", PyVal.num 100)]
    (MetricSpec.mk ["revenue","cogs"] "revenue - cogs" "Revenue minus COGS")
    (by decide) (by decide)).1
  rw [h]
  decide

/-- Claim C10: `calculate_metric` never recursively evaluates
sub-metrics.  Whenever a direct required input (such as another metric
name) is absent as a key of the dataset, the call fails with a
missing-inputs result — even when that sub-metric could have been computed
from raw statement items present in the dataset, as in the concrete
`gross_profit` case where `is.NetRevenue` and `is.CostOfRevenue` are
present but `revenue`/`cogs` are not. -/
theorem no_recursive_submetric_evaluation :
    (∀ (name : String) (data : List (String × PyVal)) (spec : MetricSpec) (inp : String),
      List.lookup (resolveAlias name) METRICS = some spec →
      inp ∈ spec.inputs →
      List.lookup inp data = none →
      (calculate_metric name data).success = false ∧
      inp ∈ (calculate_metric name data).missing_inputs) ∧
    calculate_metric "gross_profit"
      [("is.NetRevenue", PyVal.num 100), ("is.CostOfRevenue", PyVal.num 40)] =
      { success := false, error := some "Missing data for inputs: revenue, cogs",
        metric := some "gross_profit", missing_inputs := ["revenue", "cogs"] } := by
  constructor
  · intro name data spec inp hspec hmem hnone
    have hin : inp ∈ spec.inputs.filter (fun i => (List.lookup i data).isNone) :=
      List.mem_filter.mpr ⟨hmem, by simp [hnone]⟩
    have hmiss : spec.inputs.filter (fun i => (List.lookup i data).isNone) ≠ [] :=
      List.ne_nil_of_mem hin
    simp only [calculate_metric, calculate_metricR, hspec]
    rw [if_pos hmiss]
    exact ⟨rfl, hin⟩
  · decide

/-- Witness for claim C10, instantiated at `gross_profit` with only raw
statement items in the dataset. -/
theorem no_recursive_submetric_evaluation_witness :
    "revenue" ∈ (MetricSpec.mk ["revenue","cogs"] "revenue - cogs" "Revenue minus COGS").inputs ∧
    (calculate_metric "gross_profit"
      [("is.NetRevenue", PyVal.num 100), ("is.CostOfRevenue", PyVal.num 40)]).success = false ∧
    "revenue" ∈ (calculate_metric "gross_profit"
      [("is.NetRevenue", PyVal.num 100), ("is.CostOfRevenue", PyVal.num 40)]).missing_inputs := by
  refine ⟨by decide, ?_⟩
  exact no_recursive_submetric_evaluation.1 "gross_profit" _
    (MetricSpec.mk ["revenue","cogs"] "revenue - cogs" "Revenue minus COGS")
    "revenue" (by decide) (by decide) (by decide)

/-- Claim C8: alias resolution is the identity on non-alias names and is
applied before the registry lookup, so calling `calculate_metric` on an
alias gives the identical result as calling it on the canonical name (for
every dataset); in particular `sales` behaves identically to `revenue`. -/
theorem alias_resolution_transparent :
    (∀ name : String, List.lookup name METRIC_ALIASES = none → resolveAlias name = name) ∧
    (∀ (a c : String) (data : List (String × PyVal)),
      List.lookup a METRIC_ALIASES = some c →
      List.lookup c METRIC_ALIASES = none →
      calculate_metric a data = calculate_metric c data) ∧
    ∀ data : List (String × PyVal),
      calculate_metric "sales" data = calculate_metric "revenue" data := by
  refine ⟨?_, ?_, ?_⟩
  · intro name h
    unfold resolveAlias
    rw [h]
  · intro a c data ha hc
    unfold calculate_metric resolveAlias
    rw [ha, hc]
  · intro data
    unfold calculate_metric
    rw [show resolveAlias "sales" = "revenue" from by decide,
      show resolveAlias "revenue" = "revenue" from by decide]

/-- Witness for claim C8: `gross_profit` is not an alias and resolves to
itself, and `sales` and `revenue` agree on a concrete dataset. -/
theorem alias_resolution_transparent_witness :
    resolveAlias "gross_profit" = "gross_profit" ∧
    calculate_metric "sales" [("is.NetRevenue", PyVal.num 5)] =
      calculate_metric "revenue" [("is.NetRevenue", PyVal.num 5)] :=
  ⟨alias_resolution_transparent.1 "gross_profit" (by decide),
    alias_resolution_transparent.2.1 "sales" "revenue" [("is.NetRevenue", PyVal.num 5)]
      (by decide) (by decide)⟩

/-- Claim C4: for a metric whose canonical name ends in `_pct`, with all
required inputs present, the returned value is the raw formula evaluation
result multiplied by 100, applied after evaluation; and no `_pct` formula
text contains the scaling factor `100` itself. -/
theorem pct_scaling :
    (∀ (name : String) (data : List (String × PyVal)) (spec : MetricSpec) (q : ℚ),
      List.lookup (resolveAlias name) METRICS = some spec →
      endsPct (resolveAlias name) = true →
      spec.inputs.filter (fun i => (List.lookup i data).isNone) = [] →
      calcFn METRICS (resolveAlias name) data = .ok (.num q) →
      calculate_metric name data =
        { success := true, metric := some (resolveAlias name),
          value := some (.num (q * 100)), formula := some spec.formula,
          description := some spec.desc,
          inputs_used := spec.inputs.filterMap
            (fun inp => (List.lookup inp data).map (fun v => (inp, v))) }) ∧
    ∀ p ∈ METRICS, endsPct p.1 = true → occursStr "100" p.2.formula = false := by
  constructor
  · intro name data spec q hspec hpct hmiss hcalc
    simp only [calculate_metric, calculate_metricR, hspec]
    rw [if_neg (fun h => h hmiss)]
    simp only [calcScaled, hcalc, hpct]
    simp
  · decide

/-- Witness for claim C4: `net_margin_pct` on net income 10 and revenue 50
evaluates to 1/5 and is returned as 20. -/
theorem pct_scaling_witness :
    calcFn METRICS "net_margin_pct"
      [("net_income", PyVal.num 10), ("revenue", PyVal.num 50)] = .ok (.num (1/5)) ∧
    calculate_metric "net_margin_pct"
      [("net_income", PyVal.num 10), ("revenue", PyVal.num 50)] =
      { success := true, metric := some "net_margin_pct", value := some (.num 20),
        formula := some "net_income / revenue", description := some "Net profit margin",
        inputs_used := [("net_income", PyVal.num 10), ("revenue", PyVal.num 50)] } ∧
    occursStr "100" "net_income / revenue" = false := by
  have hcalc : calcFn METRICS "net_margin_pct"
      [("net_income", PyVal.num 10), ("revenue", PyVal.num 50)] = .ok (.num (1/5)) := by
    with_unfolding_all decide
  refine ⟨hcalc, ?_, pct_scaling.2
    ("net_margin_pct", MetricSpec.mk ["net_income","revenue"] "net_income / revenue"
      "Net profit margin") (by decide) (by decide)⟩
  have h := pct_scaling.1 "net_margin_pct"
    [("net_income", PyVal.num 10), ("revenue", PyVal.num 50)]
    (MetricSpec.mk ["net_income","revenue"] "net_income / revenue" "Net profit margin")
    (1/5) (by decide) (by decide) (by decide) hcalc
  rw [h]
  with_unfolding_all decide

/-- Claim C5: `calculate_metric` is a total function into structured
result records — every outcome either succeeds carrying a value and no
error, or fails carrying an error description and no value; a division
whose right operand evaluates to zero never produces a value (the model of
Python raising `ZeroDivisionError` instead of returning an infinity or
NaN); and the concrete `net_margin_pct` call with revenue 0 returns the
structured division-by-zero failure. -/
theorem errors_are_structured_results :
    (∀ (name : String) (data : List (String × PyVal)),
      ((calculate_metric name data).success = true ∧
        (calculate_metric name data).value.isSome = true ∧
        (calculate_metric name data).error = none) ∨
      ((calculate_metric name data).success = false ∧
        (calculate_metric name data).error.isSome = true ∧
        (calculate_metric name data).value = none)) ∧
    (∀ (iv : List (String × PyVal)) (e1 e2 : Expr),
      evalExpr iv e2 = .ok (.num 0) →
      okVal (evalExpr iv (Expr.binop BOp.div e1 e2)) = none) ∧
    ((calculate_metric "net_margin_pct"
        [("net_income", PyVal.num 10), ("revenue", PyVal.num 0)]).success = false ∧
      (calculate_metric "net_margin_pct"
        [("net_income", PyVal.num 10), ("revenue", PyVal.num 0)]).error =
        some ("Error calculating metric: Error evaluating formula \x27net_income / revenue\x27: ZeroDivisionError: division by zero")) := by
  refine ⟨?_, ?_, ?_⟩
  · intro name data
    unfold calculate_metric calculate_metricR
    cases hl : List.lookup (resolveAlias name) METRICS with
    | none => simp
    | some spec =>
      simp only []
      by_cases hmiss : spec.inputs.filter (fun i => (List.lookup i data).isNone) ≠ []
      · rw [if_pos hmiss]
        simp
      · rw [if_neg hmiss]
        cases hc : calcScaled (resolveAlias name) data with
        | error e => simp
        | ok v => simp
  · intro iv e1 e2 h2
    show okVal ((evalExpr iv e1).bind fun va =>
      (evalExpr iv e2).bind fun vb => applyBOp BOp.div va vb) = none
    cases h1 : evalExpr iv e1 with
    | error e => simp [Except.bind, okVal]
    | ok va =>
      rw [h2]
      cases va with
      | num a => simp [Except.bind, applyBOp, okVal]
      | str t => simp [Except.bind, applyBOp, okVal]
      | builtin b => simp [Except.bind, applyBOp, okVal]
      | obj o => simp [Except.bind, applyBOp, okVal]
      | noneVal => simp [Except.bind, applyBOp, okVal]
  · constructor
    · with_unfolding_all decide
    · with_unfolding_all decide

/-- Witness for claim C5: dividing by a zero denominator yields no value. -/
theorem errors_are_structured_results_witness :
    evalExpr [] (Expr.num 0) = .ok (.num 0) ∧
    okVal (evalExpr [] (Expr.binop BOp.div (Expr.num 1) (Expr.num 0))) = none :=
  ⟨by decide, errors_are_structured_results.2.1 [] (Expr.num 1) (Expr.num 0) (by decide)⟩

/-- Registry fact: no passthrough (single direct reference) metric has a
percentage-suffixed name, so the shortcut never interacts with scaling. -/
theorem registry_passthrough_not_pct :
    ∀ p ∈ METRICS, isPassthroughB p.2 = true → endsPct p.1 = false := by decide

/-- Registry fact: for every passthrough metric except `employees`, the
sanitized input parses as a bare identifier distinct from the builtins, so
the general rewrite-and-evaluate path would resolve it. -/
theorem registry_passthrough_parseable :
    ∀ p ∈ METRICS, p.1 ≠ "employees" → isPassthroughB p.2 = true →
      (parsesToNameB (sanitize p.2.inputs.headI) &&
        !(builtinNames.contains (sanitize p.2.inputs.headI))) = true := by decide

/-- Claim C7, counterexample: for `employees` the passthrough shortcut is
not equivalent to the general path.  The shortcut returns the dataset
value, but the general path would evaluate the rewritten formula
`10K_Employees`, which is not a valid expression (Python reports an
invalid decimal literal), so it errors. -/
theorem employees_shortcut_differs_from_general_path :
    List.lookup "employees" METRICS =
      some (MetricSpec.mk ["10K.Employees"] "10K.Employees" "Full-time headcount") ∧
    calcFn METRICS "employees" [("10K.Employees", PyVal.num 5)] = .ok (.num 5) ∧
    okVal (calcGeneral (MetricSpec.mk ["10K.Employees"] "10K.Employees" "Full-time headcount")
      [("10K.Employees", PyVal.num 5)]) = none := by
  refine ⟨by decide, by with_unfolding_all decide, by with_unfolding_all decide⟩

/-- Claim C7, amended: for every registry metric whose formula is exactly
its single required input, `calculate_metric` returns exactly the
dataset's value with no transformation, for any value including negative
numbers; and for every such metric except `employees` the passthrough
shortcut agrees with the general rewrite-and-evaluate path.  Only the
equivalence part of the original claim fails, and only at `employees`
(see the counterexample). -/
theorem passthrough_metrics :
    (∀ (name : String) (data : List (String × PyVal)) (spec : MetricSpec)
        (i : String) (v : PyVal),
      List.lookup (resolveAlias name) METRICS = some spec →
      spec.inputs = [i] → spec.formula = i →
      List.lookup i data = some v →
      calculate_metric name data =
        { success := true, metric := some (resolveAlias name), value := some v,
          formula := some spec.formula, description := some spec.desc,
          inputs_used := [(i, v)] }) ∧
    (∀ (key : String) (data : List (String × PyVal)) (spec : MetricSpec)
        (i : String) (v : PyVal),
      List.lookup key METRICS = some spec →
      spec.inputs = [i] → spec.formula = i → key ≠ "employees" →
      List.lookup i data = some v →
      calcGeneral spec data = .ok v ∧ calcFn METRICS key data = .ok v) := by
  constructor
  · intro name data spec i v hspec hinp hform hdata
    have hp : isPassthroughB spec = true := by
      unfold isPassthroughB
      rw [hinp]
      simp [hform]
    have hend : endsPct (resolveAlias name) = false :=
      registry_passthrough_not_pct (resolveAlias name, spec) (lookup_some_mem hspec) hp
    have hmiss : spec.inputs.filter (fun inp => (List.lookup inp data).isNone) = [] := by
      rw [hinp]
      simp [hdata]
    have hshort : calcFn METRICS (resolveAlias name) data = .ok v := by
      simp only [calcFn, hspec, hinp, hform, hdata]
      simp
    simp only [calculate_metric, calculate_metricR, hspec]
    rw [if_neg (fun h => h hmiss)]
    simp only [calcScaled, hshort, hend]
    simp [hinp, hdata]
  · intro key data spec i v hkey hinp hform hne hdata
    have hmem : (key, spec) ∈ METRICS := lookup_some_mem hkey
    have hp : isPassthroughB spec = true := by
      unfold isPassthroughB
      rw [hinp]
      simp [hform]
    have hparse0 := registry_passthrough_parseable (key, spec) hmem hne hp
    rw [hinp] at hparse0
    simp only [List.headI] at hparse0
    rw [Bool.and_eq_true] at hparse0
    obtain ⟨hparse, hnotb0⟩ := hparse0
    have hnotb : builtinNames.contains (sanitize i) = false := by
      simpa using hnotb0
    have hi_ne : i.data ≠ [] := by
      intro hnil
      have hie : i = "" := by
        cases i with
        | mk d => simp only at hnil; rw [hnil]
      rw [hie] at hparse
      rw [show sanitize "" = "" from by decide] at hparse
      exact absurd hparse (by decide)
    have hsafe : safeFormulaOf spec = sanitize i := by
      unfold safeFormulaOf
      rw [hinp, hform]
      simp only [List.foldl_cons, List.foldl_nil]
      by_cases hsan : i ≠ sanitize i
      · rw [if_pos hsan]
        exact strReplace_self i (sanitize i) hi_ne
      · rw [if_neg hsan]
        push_neg at hsan
        exact hsan
    have hbuild : buildInputVals spec.inputs data = [(sanitize i, v)] := by
      unfold buildInputVals
      rw [hinp]
      simp [hdata]
    have hb1 : sanitize i ≠ "abs" := fun h => absurd (h ▸ hnotb) (by decide)
    have hb2 : sanitize i ≠ "max" := fun h => absurd (h ▸ hnotb) (by decide)
    have hb3 : sanitize i ≠ "min" := fun h => absurd (h ▸ hnotb) (by decide)
    have heval : pyEval (sanitize i) [(sanitize i, v)] = .ok v := by
      unfold pyEval
      rw [parsesToNameB_eq hparse]
      show resolveName [(sanitize i, v)] (sanitize i) = .ok v
      unfold resolveName
      rw [if_neg hb1, if_neg hb2, if_neg hb3]
      simp [List.lookup]
    have hmiss : spec.inputs.filter (fun inp => (List.lookup inp data).isNone) = [] := by
      rw [hinp]
      simp [hdata]
    constructor
    · simp only [calcGeneral]
      rw [if_neg (fun h => h hmiss)]
      rw [hsafe, hbuild, heval]
    · simp only [calcFn, hkey, hinp, hform, hdata]
      simp

/-- Witness for the amended claim C7, instantiated at `revenue` with the
negative value -7. -/
theorem passthrough_metrics_witness :
    calculate_metric "revenue" [("is.NetRevenue", PyVal.num (-7))] =
      { success := true, metric := some "revenue", value := some (PyVal.num (-7)),
        formula := some "is.NetRevenue", description := some "Total top-line sales",
        inputs_used := [("is.NetRevenue", PyVal.num (-7))] } ∧
    calcGeneral (MetricSpec.mk ["is.NetRevenue"] "is.NetRevenue" "Total top-line sales")
      [("is.NetRevenue", PyVal.num (-7))] = .ok (PyVal.num (-7)) ∧
    calcFn METRICS "revenue" [("is.NetRevenue", PyVal.num (-7))] = .ok (PyVal.num (-7)) := by
  refine ⟨?_, ?_⟩
  · exact passthrough_metrics.1 "revenue" [("is.NetRevenue", PyVal.num (-7))]
      (MetricSpec.mk ["is.NetRevenue"] "is.NetRevenue" "Total top-line sales")
      "is.NetRevenue" (PyVal.num (-7)) (by decide) rfl rfl (by decide)
  · exact passthrough_metrics.2 "revenue" [("is.NetRevenue", PyVal.num (-7))]
      (MetricSpec.mk ["is.NetRevenue"] "is.NetRevenue" "Total top-line sales")
      "is.NetRevenue" (PyVal.num (-7)) (by decide) rfl rfl (by decide) (by decide)

/-- Claim C9: requirement expansion is total for every registry and every
metric name — the definition of `collectRec` carries a termination proof
by the visited-set measure — and the returned closure of transitively
required identifiers contains no duplicates; a self-referential registry
is expanded without error (the cycle simply stops that branch), and the
`free_cash_flow` closure contains exactly the raw cash-flow identifiers
its inputs depend on. -/
theorem requirement_expansion_terminates :
    (∀ (reg : List (String × MetricSpec)) (name : String) (r : ReqResult),
      get_metric_requirements reg name = .ok r → r.all_required_inputs.Nodup) ∧
    get_metric_requirements [("a", MetricSpec.mk ["a"] "a" "")] "a" =
      .ok (ReqResult.mk "a" "" "a" ["a"] ["a"] [] [] [] ["a"]) ∧
    get_metric_requirements METRICS "free_cash_flow" =
      .ok (ReqResult.mk "free_cash_flow" "CFO minus capex" "cfo - capex"
        ["cfo", "capex"] ["cfo", "capex", "cf.CashFromOperations", "cf.CapEx"]
        [] [] ["cf.CashFromOperations", "cf.CapEx"] ["cfo", "capex"]) := by
  refine ⟨?_, ?_, ?_⟩
  · intro reg name r h
    unfold get_metric_requirements at h
    simp only [] at h
    split at h
    · cases h
    · cases h
      exact nodup_foldl_collect reg _ _ (nodup_foldl_insertDedup _ [] List.nodup_nil)
  · have h1 : (collectRec [("a", MetricSpec.mk ["a"] "a" "")] "a"
        ((["a"] : List String), (["a"] : List String))).1 = (["a"], ["a"]) :=
      collectRec_visited _ _ _ (Or.inl (by decide))
    have h2 : (collectRec [("a", MetricSpec.mk ["a"] "a" "")] "a"
        ((["a"] : List String), ([] : List String))).1 = (["a"], ["a"]) := by
      rw [collectRec_new _ _ _ (MetricSpec.mk ["a"] "a" "") (by decide) (by decide)]
      rw [collectList_cons_rec _ _ _ _ (by decide)]
      rw [show insertDedup ((["a"] : List String), ([] : List String)).1 "a" =
        (["a"] : List String) from by decide]
      rw [h1, collectList_nil]
    simp only [get_metric_requirements,
      show resolveAlias "a" = "a" from by decide,
      show List.lookup "a" [("a", MetricSpec.mk ["a"] "a" "")] =
        some (MetricSpec.mk ["a"] "a" "") from by decide]
    simp only [List.foldl_cons, List.foldl_nil]
    rw [if_pos (show ((!stmtPfxd "a" &&
      (List.lookup "a" [("a", MetricSpec.mk ["a"] "a" "")]).isSome) = true) from by decide)]
    rw [show insertDedup [] "a" = (["a"] : List String) from by decide]
    rw [h2]
    decide
  · have h2 : (collectList METRICS ["cf.CashFromOperations"]
        ((["cfo","capex"] : List String), (["cfo"] : List String))).1 =
        (["cfo","capex","cf.CashFromOperations"], ["cfo"]) := by
      rw [collectList_cons_skip _ _ _ _ (by decide), collectList_nil]
      decide
    have h3 : (collectRec METRICS "cfo"
        ((["cfo","capex"] : List String), ([] : List String))).1 =
        (["cfo","capex","cf.CashFromOperations"], ["cfo"]) := by
      rw [collectRec_new _ _ _
        (MetricSpec.mk ["cf.CashFromOperations"] "cf.CashFromOperations" "Net cash from ops")
        (by decide) (by decide)]
      exact h2
    have h4 : (collectRec METRICS "capex"
        ((["cfo","capex","cf.CashFromOperations"] : List String), (["cfo"] : List String))).1 =
        (["cfo","capex","cf.CashFromOperations","cf.CapEx"], ["capex","cfo"]) := by
      rw [collectRec_new _ _ _
        (MetricSpec.mk ["cf.CapEx"] "cf.CapEx" "Capital expenditures")
        (by decide) (by decide)]
      rw [collectList_cons_skip _ _ _ _ (by decide), collectList_nil]
      decide
    simp only [get_metric_requirements,
      show resolveAlias "free_cash_flow" = "free_cash_flow" from by decide,
      show List.lookup "free_cash_flow" METRICS =
        some (MetricSpec.mk ["cfo","capex"] "cfo - capex" "CFO minus capex") from by decide]
    simp only [List.foldl_cons, List.foldl_nil]
    rw [show insertDedup (insertDedup [] "cfo") "capex" = (["cfo","capex"] : List String)
      from by decide]
    rw [if_pos (show ((!stmtPfxd "cfo" && (List.lookup "cfo" METRICS).isSome) = true)
      from by decide)]
    rw [h3]
    rw [if_pos (show ((!stmtPfxd "capex" && (List.lookup "capex" METRICS).isSome) = true)
      from by decide)]
    rw [h4]
    decide

/-- Witness for claim C9: the no-duplicates conclusion at the cyclic
single-entry registry. -/
theorem requirement_expansion_terminates_witness :
    (ReqResult.mk "a" "" "a" ["a"] ["a"] [] [] [] ["a"]).all_required_inputs.Nodup :=
  requirement_expansion_terminates.1 [("a", MetricSpec.mk ["a"] "a" "")] "a" _
    requirement_expansion_terminates.2.1
